import Mathlib

/-!
Shallow embedding of `cover_art_hunter.py`: a concurrent multi-stage pipeline that
discovers and ranks cover-art images for (artist, album) pairs.  Network and
filesystem effects are modelled by explicit oracles; the tenacity retry decorator
`retry(stop=stop_after_attempt(5), wait=wait_exponential(multiplier=1, min=1, max=60),
reraise=True)` is modelled by an explicit fuelled runner; exceptions are `Except Unit`.
-/

namespace CoverArtHunter

/-- A release object from the metadata catalog: `{id, status}`; `release.get("status")`
is `none` when the key is missing. -/
structure Release where
  id : String
  status : Option String
deriving DecidableEq

/-- A release-group object: `{id, primary-type, releases}`. -/
structure ReleaseGroup where
  id : String
  primaryType : Option String
  releases : List Release
deriving DecidableEq

/-- A metadata-catalog page body as the code reads it: `data.get("count", 0)` and
`data.get("release-groups", [])`, so the empty JSON object `{}` reads as `⟨0, []⟩`. -/
structure MBPage where
  count : Nat
  releaseGroups : List ReleaseGroup
deriving DecidableEq

/-- What the empty dict `{}` yields under the two `.get` defaults. -/
def MBPage.emptyPage : MBPage := ⟨0, []⟩

/-- One entry of the art archive's `images` array: the optional `image` URL key and
the optional `types` array. -/
structure CAImage where
  image : Option String
  types : Option (List String)
deriving DecidableEq

/-- An art-archive response body: `data.get("images", [])`. -/
structure CAResponse where
  images : List CAImage
deriving DecidableEq

/-- What the empty dict `{}` yields via `data.get("images", [])`. -/
def CAResponse.emptyResp : CAResponse := ⟨[]⟩

/-- The list-comprehension filter in `fetch_cover_art_urls`:
`"image" in image and image.get("types") and "Front" in image["types"]`,
extracting `image["image"]`.  Python truthiness of `image.get("types")` requires the
key to be present with a non-empty list. -/
def frontImageURL (img : CAImage) : Option String :=
  match img.image, img.types with
  | some u, some ts => if ts ≠ [] ∧ "Front" ∈ ts then some u else none
  | _, _ => none

/-- Outcome of one HTTP attempt as seen by a tenacity-wrapped coroutine: either a
transport-level exception raised by the client, or a response with a status code and
a parsed body. -/
inductive AttemptOutcome (α : Type) where
  | transport
  | response (status : Nat) (body : α)
deriving DecidableEq

/-- tenacity `wait_exponential(multiplier, min, max)`: after failed attempt number `k`
(1-based) the wait is `max(min, min(multiplier * exp_base^(k-1), max))` with
`exp_base = 2`. -/
def waitExponential (multiplier minW maxW k : Nat) : Nat :=
  max minW (min (multiplier * 2 ^ (k - 1)) maxW)

/-- Trace of one tenacity-wrapped call: the final result (`error` = the terminal
exception reraised after exhaustion), the number of attempts performed, and the waits
slept between consecutive attempts. -/
structure RetryTrace (β : Type) where
  result : Except Unit β
  attempts : Nat
  waits : List Nat

/-- tenacity `retry(stop=stop_after_attempt(total), wait=wait_exponential(1, 1, 60),
reraise=True)`: run `body k` for attempt number `k`, retrying while the body raises,
reraising once the fuel (remaining allowed attempts) runs out. -/
def tenacityRun (body : Nat → Except Unit β) : Nat → Nat → RetryTrace β
  | _, 0 => ⟨.error (), 0, []⟩
  | k, fuel + 1 =>
    match body k with
    | .ok v => ⟨.ok v, 1, []⟩
    | .error () =>
      if fuel = 0 then ⟨.error (), 1, []⟩
      else
        let rest := tenacityRun body (k + 1) fuel
        ⟨rest.result, rest.attempts + 1, waitExponential 1 1 60 k :: rest.waits⟩

/-- The retry policy applied to both decorated coroutines: 5 total attempts. -/
def retry5 (body : Nat → Except Unit β) : RetryTrace β :=
  tenacityRun body 1 5

/-- One attempt of `fetch_data`: a transport failure raises (and is retried); a 200
response returns its body; any other status logs a warning and returns the empty
body.  The `Bool` records whether the warning was logged. -/
def fetch_data_body (net : Nat → AttemptOutcome α) (emptyVal : α) (k : Nat) :
    Except Unit (α × Bool) :=
  match net k with
  | .transport => .error ()
  | .response s body => if s = 200 then .ok (body, false) else .ok (emptyVal, true)

/-- The `fetch_data` coroutine under its retry decorator: `net k` is what attempt `k`
observes, `emptyVal` is the value of the empty dict `{}` at this call's body type. -/
def fetch_data (net : Nat → AttemptOutcome α) (emptyVal : α) : RetryTrace (α × Bool) :=
  retry5 (fetch_data_body net emptyVal)

/-- Awaiting a list of fallible sub-tasks in order, collecting their values: the
first exception raised at an `await` propagates and the collection stops there. -/
def mapME {γ δ : Type} (f : γ → Except Unit δ) : List γ → Except Unit (List δ)
  | [] => .ok []
  | a :: t =>
    match f a with
    | .error () => .error ()
    | .ok v =>
      match mapME f t with
      | .error () => .error ()
      | .ok vs => .ok (v :: vs)

/-- `fetch_release_groups`: one catalog page request through `fetch_data`.  Its
`except RetryError` handler (line 104) is dead code: because the decorator passes
`reraise=True`, tenacity's exhaustion path calls `RetryError.reraise()`, which
re-raises the last attempt's underlying transport exception (the last attempt has
always failed here, as only exceptions trigger retries), never a `RetryError` — so
the exception propagates to the caller instead of degrading to the empty dict. -/
def fetch_release_groups (net : Nat → AttemptOutcome MBPage) : Except Unit MBPage :=
  match (fetch_data net MBPage.emptyPage).result with
  | .ok (p, _) => .ok p
  | .error () => .error ()

/-- Python `range(start, stop, step)` for a positive step. -/
def pyRange (start stop step : Nat) : List Nat :=
  (List.range ((stop - start + step - 1) / step)).map fun i => start + i * step

/-- `get_release_groups`: the initial page at offset 0 learns `count`; the remaining
offsets `range(100, count, 100)` are fetched and all pages' `release-groups` lists are
concatenated.  An exception from the initial `await` (line 119) or from any awaited
page task (line 134) propagates out of the call.  The code appends completed pages in
task-completion order; this embedding fixes launch order as the completion order
(order-dependence of the fan-out stages is analysed separately on
`find_image_details`). -/
def get_release_groups (pages : Nat → Nat → AttemptOutcome MBPage) :
    Except Unit (List ReleaseGroup) :=
  match fetch_release_groups (pages 0) with
  | .error () => .error ()
  | .ok initial =>
    match mapME (fun o => fetch_release_groups (pages o)) (pyRange 100 initial.count 100) with
    | .error () => .error ()
    | .ok results =>
      .ok (initial.releaseGroups ++ (results.map MBPage.releaseGroups).flatten)

/-- The offsets of the page requests `get_release_groups` issues: the offset-0
request is always issued; when it returns (with or without data), one task per
offset in `range(100, count, 100)` is created and launched (lines 123-133) before
any is awaited, so all of those requests are issued even if one of them later
raises. -/
def get_release_groups_requests (pages : Nat → Nat → AttemptOutcome MBPage) : List Nat :=
  match fetch_release_groups (pages 0) with
  | .error () => [0]
  | .ok initial => 0 :: pyRange 100 initial.count 100

/-- The number of release groups one page request contributes to the merged output:
the length of its returned `release-groups` list, read as 0 for a request that
raised.  The 0 branch is only a counting convention: the merged-count statements
use it under the hypothesis that the resolve call completed, in which case every
issued request returned. -/
def pageContribution (net : Nat → AttemptOutcome MBPage) : Nat :=
  match fetch_release_groups net with
  | .ok p => p.releaseGroups.length
  | .error () => 0

/-- `fetch_cover_art_urls`: one art-archive query through `fetch_data`, filtering the
`images` array to front covers.  As with `fetch_release_groups`, its
`except RetryError` handler (line 157) is dead code under `reraise=True`: transport
exhaustion re-raises the underlying transport exception, which propagates instead of
degrading to `(release_id, [])`. -/
def fetch_cover_art_urls (net : Nat → AttemptOutcome CAResponse) (releaseId : String) :
    Except Unit (String × List String) :=
  match (fetch_data net CAResponse.emptyResp).result with
  | .ok (data, _) => .ok (releaseId, data.images.filterMap frontImageURL)
  | .error () => .error ()

/-- `get_cover_art_urls`: one query per release id (results collected per id; the
embedding fixes launch order as completion order); an exception from any awaited
query propagates out of the stage. -/
def get_cover_art_urls (net : String → Nat → AttemptOutcome CAResponse)
    (releaseIds : List String) : Except Unit (List (String × List String)) :=
  mapME (fun rid => fetch_cover_art_urls (net rid) rid) releaseIds

/-- The record built by `fetch_image_details`: `{url, dimensions, resolution, local_path}`. -/
structure ImageDetail where
  url : String
  dimensions : Nat × Nat
  resolution : Nat
  local_path : Option String
deriving DecidableEq

/-- Model of `os.path.basename`: the component after the last `/`, computed as the
longest slash-free suffix of the path. -/
def basename (s : String) : String :=
  ⟨(s.data.reverse.takeWhile fun c => c ≠ '/').reverse⟩

/-- Model of `os.path.join` for a directory and a relative component. -/
def joinPath (dir file : String) : String := dir ++ "/" ++ file

/-- Outcome of the in-`try` download of an image URL on one attempt: a transport
exception from `session.get`/`read`, or a body that either decodes (via `PIL`)
to an image of the given width and height, or fails to decode. -/
inductive DownloadOutcome where
  | transport
  | bytes (decoded : Option (Nat × Nat))
deriving DecidableEq

/-- The local filesystem as the materializer sees it: `os.path.exists`, and the
dimensions `PIL.Image.open` reads from an existing path (`none` models `Image.open`
raising on that path). -/
structure FSOracle where
  pathExists : String → Bool
  openLocal : String → Option (Nat × Nat)

/-- Trace of one attempt of the `fetch_image_details` body: its result (`error` = an
exception escaping the body, which the decorator retries) and how many network
requests the attempt issued. -/
structure ImgAttempt where
  result : Except Unit (Option ImageDetail)
  networkCalls : Nat

/-- The `try` block of `fetch_image_details` (lines 65-80): everything raised inside,
including transport-level failures and decode failures, is caught by
`except Exception` and yields the empty dict (`none`); `lp` is the derived local
path when `save_path` is set. -/
def fetchTryBlock (fs : FSOracle) (net : Nat → DownloadOutcome) (url : String)
    (skip_existing : Bool) (k : Nat) (lp : Option String) : ImgAttempt :=
  match net k with
  | .transport => ⟨.ok none, 1⟩
  | .bytes none => ⟨.ok none, 1⟩
  | .bytes (some (w, h)) =>
    let _save : Bool :=
      match lp with
      | some p => !(skip_existing && fs.pathExists p)
      | none => false
    ⟨.ok (some ⟨url, (w, h), w * h, lp⟩), 1⟩

/-- One attempt of the `fetch_image_details` body: the cache branch (lines 51-63)
runs outside the `try`, so `Image.open` failing on the cached file raises out of the
body (and is retried by the decorator); otherwise the `try` block runs. -/
def fetch_image_details_body (fs : FSOracle) (net : Nat → DownloadOutcome)
    (url : String) (save_path : Option String) (skip_existing : Bool) (k : Nat) :
    ImgAttempt :=
  match save_path with
  | some sp =>
    let lp := joinPath sp (basename url)
    if skip_existing && fs.pathExists lp then
      match fs.openLocal lp with
      | some wh => ⟨.ok (some ⟨url, wh, wh.1 * wh.2, some lp⟩), 0⟩
      | none => ⟨.error (), 0⟩
    else
      fetchTryBlock fs net url skip_existing k (some lp)
  | none => fetchTryBlock fs net url skip_existing k none

/-- Trace of a full `fetch_image_details` call: final result, attempts performed,
total network requests issued across attempts, and the backoff waits slept. -/
structure ImgRun where
  result : Except Unit (Option ImageDetail)
  attempts : Nat
  networkCalls : Nat
  waits : List Nat

/-- The retry loop around the `fetch_image_details` body, accumulating its trace. -/
def fetch_image_details_go (fs : FSOracle) (net : Nat → DownloadOutcome) (url : String)
    (save_path : Option String) (skip_existing : Bool) : Nat → Nat → ImgRun
  | _, 0 => ⟨.error (), 0, 0, []⟩
  | k, fuel + 1 =>
    let a := fetch_image_details_body fs net url save_path skip_existing k
    match a.result with
    | .ok v => ⟨.ok v, 1, a.networkCalls, []⟩
    | .error () =>
      if fuel = 0 then ⟨.error (), 1, a.networkCalls, []⟩
      else
        let rest := fetch_image_details_go fs net url save_path skip_existing (k + 1) fuel
        ⟨rest.result, rest.attempts + 1, a.networkCalls + rest.networkCalls,
          waitExponential 1 1 60 k :: rest.waits⟩

/-- The `fetch_image_details` coroutine under its retry decorator (5 total attempts). -/
def fetch_image_details (fs : FSOracle) (net : Nat → DownloadOutcome) (url : String)
    (save_path : Option String) (skip_existing : Bool) : ImgRun :=
  fetch_image_details_go fs net url save_path skip_existing 1 5

/-- The cache-hit condition of lines 52-54: `save_path` set, `skip_existing` true and
the derived local path exists. -/
def cacheHit (fs : FSOracle) (save_path : Option String) (skip_existing : Bool)
    (url : String) : Bool :=
  match save_path with
  | some sp => skip_existing && fs.pathExists (joinPath sp (basename url))
  | none => false

/-- The `local_path` field of a run's returned detail, when the run returned one. -/
def runLocalPath (r : ImgRun) : Option String :=
  match r.result with
  | .ok (some d) => d.local_path
  | _ => none

/-- The sort order of `sorted(valid_image_details, key=resolution, reverse=True)`:
`a` may precede `b` when `b.resolution ≤ a.resolution`.  Python's sort is stable and
`reverse=True` preserves stability, which insertion sort with this non-strict
relation reproduces. -/
def resDescend (a b : ImageDetail) : Prop := b.resolution ≤ a.resolution

instance : DecidableRel resDescend :=
  fun a b => inferInstanceAs (Decidable (b.resolution ≤ a.resolution))

instance : IsTotal ImageDetail resDescend :=
  ⟨fun a b => Nat.le_total b.resolution a.resolution⟩

instance : IsTrans ImageDetail resDescend :=
  ⟨fun _ _ _ h1 h2 => Nat.le_trans h2 h1⟩

/-- Lines 207-209: sort the valid details by resolution, descending, stably. -/
def rankByResolution (l : List ImageDetail) : List ImageDetail :=
  List.insertionSort resDescend l

/-- `find_image_details`, abstracted over the awaited per-URL results: `outcome` is
each URL's materialization result and `order` is the task-completion order (a
permutation of the input URL list).  Falsy `{}` results are filtered out and the
rest sorted by resolution descending. -/
def find_image_details (outcome : String → Option ImageDetail) (order : List String) :
    List ImageDetail :=
  rankByResolution (order.filterMap outcome)

/-- Line 289: `sorted_image_details[0] if sorted_image_details else {}`. -/
def pickWinner : List ImageDetail → Option ImageDetail
  | [] => none
  | d :: _ => some d

/-- One URL's materialization inside the pipeline: the full retried
`fetch_image_details` run; exhausted retries reraise into the awaiting caller. -/
def materializeURL (fs : FSOracle) (imgNet : String → Nat → DownloadOutcome)
    (save_path : Option String) (skip_existing : Bool) (url : String) :
    Except Unit (Option ImageDetail) :=
  (fetch_image_details fs (imgNet url) url save_path skip_existing).result

/-- `find_image_details` as the pipeline calls it (launch order as completion order);
an exception from any URL's task propagates out of the stage. -/
def find_image_details_pipeline (m : String → Except Unit (Option ImageDetail))
    (urls : List String) : Except Unit (List ImageDetail) :=
  match mapME m urls with
  | .error () => .error ()
  | .ok ds => .ok (rankByResolution (ds.filterMap id))

/-- The release-type filter of lines 236-239. -/
def typeFilter (release_type : Option String) (rgs : List ReleaseGroup) :
    List ReleaseGroup :=
  match release_type with
  | none => rgs
  | some t => rgs.filter fun rg => rg.primaryType == some t

/-- The status filter of line 250: `not status or release.get("status") == status`. -/
def statusFilter (status : Option String) (r : Release) : Bool :=
  match status with
  | none => true
  | some s => r.status == some s

/-- Lines 246-251: flatten the surviving release groups to release ids. -/
def albumReleaseIds (rgs : List ReleaseGroup) (status : Option String) : List String :=
  rgs.flatMap fun rg => (rg.releases.filter (statusFilter status)).map Release.id

/-- What a pipeline instance hands back: line 289's winner, plus whether it took one
of the logged-error early exits (lines 240-244 / 259-261). -/
structure PipelineResult where
  winner : Option ImageDetail
  errorLogged : Bool
deriving DecidableEq

/-- The external world one album's pipeline interacts with: the paginated catalog
(indexed by offset and attempt), the art archive (indexed by release id and
attempt), the filesystem, and the image downloads (indexed by URL and attempt). -/
structure AlbumOracle where
  pages : Nat → Nat → AttemptOutcome MBPage
  cover : String → Nat → AttemptOutcome CAResponse
  fs : FSOracle
  img : String → Nat → DownloadOutcome

/-- `process_artist_album` (lines 221-289): resolve, filter, flatten to release ids,
locate cover art, flatten to URLs, materialize, pick the winner; the two
empty-candidate checks log an error and return the empty dict early; an exception
raised by any awaited stage propagates out of the pipeline. -/
def process_artist_album (o : AlbumOracle) (artist album : String)
    (release_type status : Option String) (save_images skip_existing : Bool)
    (output_dir : String) : Except Unit PipelineResult :=
  match get_release_groups o.pages with
  | .error () => .error ()
  | .ok rgs0 =>
    let release_groups := typeFilter release_type rgs0
    if release_groups.isEmpty then .ok ⟨none, true⟩
    else
      match get_cover_art_urls o.cover (albumReleaseIds release_groups status) with
      | .error () => .error ()
      | .ok cover_art_results =>
        let all_cover_art_urls := cover_art_results.flatMap Prod.snd
        if all_cover_art_urls.isEmpty then .ok ⟨none, true⟩
        else
          let album_dir := joinPath (joinPath output_dir artist) album
          let save_path := if save_images then some album_dir else none
          match find_image_details_pipeline
              (materializeURL o.fs o.img save_path skip_existing) all_cover_art_urls with
          | .ok sorted => .ok ⟨pickWinner sorted, false⟩
          | .error () => .error ()

/-- One entry of the `artists_albums` configuration list. -/
structure ArtistAlbums where
  artist : String
  albums : List String
deriving DecidableEq

/-- One entry of the batch summary (lines 331-337). -/
structure SummaryEntry where
  artist : String
  album : String
  highest_resolution_image : ImageDetail
deriving DecidableEq

/-- The (artist, album) pairs in request order: `main` builds one pipeline task per
album of each configuration entry (lines 305-323). -/
def pipelinePairs (cfg : List ArtistAlbums) : List (String × String) :=
  cfg.flatMap fun aa => aa.albums.map fun al => (aa.artist, al)

/-- `asyncio.gather` over the per-album pipelines: results in task order; an
exception in any task propagates. -/
def gatherPipelines (cfg : List ArtistAlbums)
    (run : String → String → Except Unit (Option ImageDetail)) :
    Except Unit (List (Option ImageDetail)) :=
  (pipelinePairs cfg).mapM fun p => run p.1 p.2

/-- Lines 327-337 as written: `zip(results, artists_albums)` pairs the flattened
per-(artist, album) results with the per-artist configuration entries, then appends
one summary record per album of the entry, all built from the single zipped result
(appended only when it is truthy). -/
def mainAggregate (cfg : List ArtistAlbums) (results : List (Option ImageDetail)) :
    List SummaryEntry :=
  (results.zip cfg).flatMap fun pr =>
    pr.2.albums.filterMap fun album =>
      pr.1.map fun img => ⟨pr.2.artist, album, img⟩

/-- The batch summary `main` produces when each pipeline (in request order) yields
the winner given by `winner`. -/
def mainSummary (cfg : List ArtistAlbums)
    (winner : String → String → Option ImageDetail) : List SummaryEntry :=
  mainAggregate cfg ((pipelinePairs cfg).map fun p => winner p.1 p.2)

/-- The aggregation as the specification describes it: one entry per (artist, album)
request whose pipeline produced an image, pairing that album with its own pipeline's
winner, in request order. -/
def specAggregate (cfg : List ArtistAlbums)
    (winner : String → String → Option ImageDetail) : List SummaryEntry :=
  (pipelinePairs cfg).filterMap fun p =>
    (winner p.1 p.2).map fun img => ⟨p.1, p.2, img⟩

/-- Witness oracle: every attempt observes a 404 response. -/
def wNet404 : Nat → AttemptOutcome Nat := fun _ => .response 404 7

/-- Witness oracle: every attempt observes a transport-level failure. -/
def wNetDown : Nat → AttemptOutcome Nat := fun _ => .transport

/-- Witness catalog oracle: offset 0 reports count 150 with one group; every other
offset (in particular offset 100) always fails at transport level. -/
def wPages : Nat → Nat → AttemptOutcome MBPage := fun o _ =>
  if o = 0 then .response 200 ⟨150, [⟨"g1", some "Album", []⟩]⟩ else .transport

/-- Witness art-archive oracle: release id "bad" always fails at transport level,
every other id yields one front cover. -/
def wCover : String → Nat → AttemptOutcome CAResponse := fun rid _ =>
  if rid = "bad" then .transport
  else .response 200 ⟨[⟨some "u1", some ["Front"]⟩]⟩

/-- Counterexample catalog oracle: every page request succeeds and reports
`count = 0` with no release groups. -/
def wPagesZero : Nat → Nat → AttemptOutcome MBPage := fun _ _ => .response 200 ⟨0, []⟩

/-- Two witness release groups carried by every page of `wPages250`. -/
def wGroups250 : List ReleaseGroup := [⟨"g1", none, []⟩, ⟨"g2", none, []⟩]

/-- Witness catalog oracle: every page reports `count = 250` and carries two
release groups. -/
def wPages250 : Nat → Nat → AttemptOutcome MBPage := fun _ _ =>
  .response 200 ⟨250, wGroups250⟩

/-- Witness catalog oracle: every page request gets a 404 response. -/
def wPages404 : Nat → Nat → AttemptOutcome MBPage := fun _ _ =>
  .response 404 ⟨5, [⟨"g1", none, []⟩]⟩

/-- Witness details: two images of equal resolution 100 with different shapes, and
one of resolution 300. -/
def wDetA : ImageDetail := ⟨"a.jpg", (2, 50), 100, none⟩

/-- Second equal-resolution witness detail. -/
def wDetB : ImageDetail := ⟨"b.jpg", (4, 25), 100, none⟩

/-- Highest-resolution witness detail. -/
def wDetC : ImageDetail := ⟨"c.jpg", (30, 10), 300, none⟩

/-- Witness materialization outcomes per URL. -/
def wOutcome : String → Option ImageDetail := fun u =>
  if u = "a.jpg" then some wDetA
  else if u = "b.jpg" then some wDetB
  else if u = "c.jpg" then some wDetC
  else none

/-- Witness filesystem with no files. -/
def wFsEmpty : FSOracle := ⟨fun _ => false, fun _ => none⟩

/-- Witness filesystem where every path exists but `Image.open` raises on it. -/
def wFsCorrupt : FSOracle := ⟨fun _ => true, fun _ => none⟩

/-- Witness filesystem where every path exists and reads as a 10 x 20 image. -/
def wFsCached : FSOracle := ⟨fun _ => true, fun _ => some (10, 20)⟩

/-- Witness download oracle: every attempt fails at transport level. -/
def wNetDrop : Nat → DownloadOutcome := fun _ => .transport

/-- Witness download oracle: every attempt yields bytes decoding to a 3 x 4 image. -/
def wNetImg34 : Nat → DownloadOutcome := fun _ => .bytes (some (3, 4))

/-- Whether an `Except Unit` computation completed without an exception. -/
def isOkE {β : Type} : Except Unit β → Bool
  | .ok _ => true
  | .error () => false

/-- Witness album oracle: the catalog reports count 0 everywhere; the other
collaborators are irrelevant to the early exit. -/
def wAlbumOracle : AlbumOracle := ⟨wPagesZero, wCover, wFsEmpty, fun _ => wNetDrop⟩

/-- Failing configuration for the batch summary: one artist with two albums. -/
def wCfgAB : List ArtistAlbums := [⟨"A", ["x", "y"]⟩]

/-- Winner of the ("A", "x") pipeline. -/
def wWinX : ImageDetail := ⟨"x.jpg", (1, 1), 1, none⟩

/-- Winner of the ("A", "y") pipeline. -/
def wWinY : ImageDetail := ⟨"y.jpg", (2, 1), 2, none⟩

/-- Per-pipeline winners: album "x" produced `wWinX`, album "y" produced `wWinY`. -/
def wWinners : String → String → Option ImageDetail := fun _ al =>
  if al = "x" then some wWinX
  else if al = "y" then some wWinY
  else none

/-- Per-pipeline winners where only album "y" produced an image. -/
def wWinnersOnlyY : String → String → Option ImageDetail := fun _ al =>
  if al = "y" then some wWinY else none

/-- Generic fact: the code's head-pick equals `List.head?`. -/
lemma pickWinner_eq_head (l : List ImageDetail) : pickWinner l = l.head? := by
  cases l <;> rfl

lemma tenacityRun_ok {β : Type} (body : Nat → Except Unit β) (k fuel : Nat) (v : β)
    (h : body k = .ok v) : tenacityRun body k (fuel + 1) = ⟨.ok v, 1, []⟩ := by
  simp [tenacityRun, h]

lemma tenacityRun_last {β : Type} (body : Nat → Except Unit β) (k : Nat)
    (h : body k = .error ()) : tenacityRun body k 1 = ⟨.error (), 1, []⟩ := by
  simp [tenacityRun, h]

lemma tenacityRun_step {β : Type} (body : Nat → Except Unit β) (k fuel : Nat)
    (h : body k = .error ()) :
    tenacityRun body k (fuel + 2) =
      ⟨(tenacityRun body (k + 1) (fuel + 1)).result,
        (tenacityRun body (k + 1) (fuel + 1)).attempts + 1,
        waitExponential 1 1 60 k :: (tenacityRun body (k + 1) (fuel + 1)).waits⟩ := by
  simp [tenacityRun, h]

lemma img_go_ok (fs : FSOracle) (net : Nat → DownloadOutcome) (url : String)
    (sp : Option String) (se : Bool) (k fuel : Nat) (v : Option ImageDetail) (n : Nat)
    (h : fetch_image_details_body fs net url sp se k = ⟨.ok v, n⟩) :
    fetch_image_details_go fs net url sp se k (fuel + 1) = ⟨.ok v, 1, n, []⟩ := by
  simp [fetch_image_details_go, h]

lemma img_go_last (fs : FSOracle) (net : Nat → DownloadOutcome) (url : String)
    (sp : Option String) (se : Bool) (k n : Nat)
    (h : fetch_image_details_body fs net url sp se k = ⟨.error (), n⟩) :
    fetch_image_details_go fs net url sp se k 1 = ⟨.error (), 1, n, []⟩ := by
  simp [fetch_image_details_go, h]

lemma img_go_step (fs : FSOracle) (net : Nat → DownloadOutcome) (url : String)
    (sp : Option String) (se : Bool) (k fuel n : Nat)
    (h : fetch_image_details_body fs net url sp se k = ⟨.error (), n⟩) :
    fetch_image_details_go fs net url sp se k (fuel + 2) =
      ⟨(fetch_image_details_go fs net url sp se (k + 1) (fuel + 1)).result,
        (fetch_image_details_go fs net url sp se (k + 1) (fuel + 1)).attempts + 1,
        n + (fetch_image_details_go fs net url sp se (k + 1) (fuel + 1)).networkCalls,
        waitExponential 1 1 60 k ::
          (fetch_image_details_go fs net url sp se (k + 1) (fuel + 1)).waits⟩ := by
  simp [fetch_image_details_go, h]

lemma img_body_no_cache_transport (fs : FSOracle) (net : Nat → DownloadOutcome)
    (url : String) (sp : Option String) (se : Bool) (k : Nat)
    (hch : cacheHit fs sp se url = false) (hnet : net k = .transport) :
    fetch_image_details_body fs net url sp se k = ⟨.ok none, 1⟩ := by
  cases sp with
  | none => simp [fetch_image_details_body, fetchTryBlock, hnet]
  | some p =>
    have hc : (se && fs.pathExists (joinPath p (basename url))) = false := by
      simpa [cacheHit] using hch
    simp [fetch_image_details_body, hc, fetchTryBlock, hnet]

lemma img_body_corrupt_cache (fs : FSOracle) (net : Nat → DownloadOutcome)
    (url p : String) (k : Nat)
    (hex : fs.pathExists (joinPath p (basename url)) = true)
    (hopen : fs.openLocal (joinPath p (basename url)) = none) :
    fetch_image_details_body fs net url (some p) true k = ⟨.error (), 0⟩ := by
  simp [fetch_image_details_body, hex, hopen]

lemma fetch_data_all_transport {α : Type} (net : Nat → AttemptOutcome α) (emptyVal : α)
    (h : ∀ k, net k = .transport) :
    fetch_data net emptyVal = ⟨.error (), 5, [1, 2, 4, 8]⟩ := by
  have hb : ∀ k, fetch_data_body net emptyVal k = .error () := fun k => by
    simp [fetch_data_body, h k]
  unfold fetch_data retry5
  rw [tenacityRun_step _ 1 3 (hb 1), tenacityRun_step _ 2 2 (hb 2),
    tenacityRun_step _ 3 1 (hb 3), tenacityRun_step _ 4 0 (hb 4),
    tenacityRun_last _ 5 (hb 5)]
  simp [waitExponential]

lemma fetch_data_non200 {α : Type} (net : Nat → AttemptOutcome α) (emptyVal : α)
    (s : Nat) (b : α) (h1 : net 1 = .response s b) (h2 : s ≠ 200) :
    fetch_data net emptyVal = ⟨.ok (emptyVal, true), 1, []⟩ := by
  have hb : fetch_data_body net emptyVal 1 = .ok (emptyVal, true) := by
    simp [fetch_data_body, h1, h2]
  unfold fetch_data retry5
  exact tenacityRun_ok _ 1 4 _ hb

lemma fetch_release_groups_all_transport (net : Nat → AttemptOutcome MBPage)
    (h : ∀ k, net k = .transport) :
    fetch_release_groups net = .error () := by
  unfold fetch_release_groups
  rw [fetch_data_all_transport net MBPage.emptyPage h]

lemma fetch_release_groups_non200 (net : Nat → AttemptOutcome MBPage)
    (s : Nat) (b : MBPage) (h1 : net 1 = .response s b) (h2 : s ≠ 200) :
    fetch_release_groups net = .ok MBPage.emptyPage := by
  unfold fetch_release_groups
  rw [fetch_data_non200 net MBPage.emptyPage s b h1 h2]

lemma fetch_cover_art_urls_all_transport (net : Nat → AttemptOutcome CAResponse)
    (rid : String) (h : ∀ k, net k = .transport) :
    fetch_cover_art_urls net rid = .error () := by
  unfold fetch_cover_art_urls
  rw [fetch_data_all_transport net CAResponse.emptyResp h]

lemma mapME_ok_map {γ δ ε : Type} (f : γ → Except Unit δ) (g : δ → ε) (e : γ → ε)
    (hcomp : ∀ x v, f x = .ok v → g v = e x) :
    ∀ (l : List γ) (rs : List δ), mapME f l = .ok rs → rs.map g = l.map e := by
  intro l
  induction l with
  | nil =>
    intro rs h
    cases h
    rfl
  | cons a t ih =>
    intro rs h
    unfold mapME at h
    cases hfa : f a with
    | error u =>
      cases u
      simp only [hfa] at h
      exact Except.noConfusion h
    | ok v =>
      cases hmt : mapME f t with
      | error u =>
        cases u
        simp only [hfa, hmt] at h
        exact Except.noConfusion h
      | ok vs =>
        simp only [hfa, hmt, Except.ok.injEq] at h
        subst h
        simp [hcomp a v hfa, ih vs hmt]

/-- C3: for every call to the fetch client, a non-success HTTP status on the first
attempt logs a warning and returns the empty result with no retry (one attempt, no
waits); if every attempt hits a transport-level failure, exactly 5 total attempts are
made with waits 1, 2, 4, 8 seconds between them and the terminal error is reraised to
the caller; the configured backoff starts at 1 second and is the doubling sequence
`2^(k-1)` capped at 60 seconds. -/
theorem fetch_data_retry_policy :
    (∀ (α : Type) (net : Nat → AttemptOutcome α) (emptyVal : α) (s : Nat) (b : α),
        net 1 = .response s b → s ≠ 200 →
        fetch_data net emptyVal = ⟨.ok (emptyVal, true), 1, []⟩)
    ∧ (∀ (α : Type) (net : Nat → AttemptOutcome α) (emptyVal : α),
        (∀ k, net k = .transport) →
        fetch_data net emptyVal = ⟨.error (), 5, [1, 2, 4, 8]⟩)
    ∧ waitExponential 1 1 60 1 = 1
    ∧ (∀ k, 1 ≤ k → waitExponential 1 1 60 k = min (2 ^ (k - 1)) 60) := by
  refine ⟨?_, ?_, rfl, ?_⟩
  · intro α net emptyVal s b h1 h2
    exact fetch_data_non200 net emptyVal s b h1 h2
  · intro α net emptyVal h
    exact fetch_data_all_transport net emptyVal h
  · intro k hk
    have h1 : 1 ≤ 2 ^ (k - 1) := Nat.one_le_two_pow
    unfold waitExponential
    rw [one_mul]
    exact Nat.max_eq_right (Nat.le_min.mpr ⟨h1, by norm_num⟩)

/-- Witness for C3: concrete runs discharging each hypothesis of
`fetch_data_retry_policy`. -/
theorem fetch_data_retry_policy_witness :
    fetch_data wNet404 0 = ⟨.ok (0, true), 1, []⟩
    ∧ fetch_data wNetDown 0 = ⟨.error (), 5, [1, 2, 4, 8]⟩
    ∧ waitExponential 1 1 60 3 = min (2 ^ (3 - 1)) 60 :=
  ⟨fetch_data_retry_policy.1 Nat wNet404 0 404 7 rfl (by decide),
    fetch_data_retry_policy.2.1 Nat wNetDown 0 fun _ => rfl,
    fetch_data_retry_policy.2.2.2 3 (by decide)⟩

/-- C2 evaluated at a failing input: with `reraise=True`, tenacity's exhaustion path
re-raises the last attempt's underlying transport exception, which the
`except RetryError` handlers at lines 104 and 157 never match.  So a page whose 5
attempts all fail at transport level (offset 100, while offset 0 succeeded with
count 150) aborts the whole resolve call instead of contributing zero release
groups; a release id whose attempts all fail ("bad", while sibling "good" yields a
front cover) aborts the locate call instead of contributing an empty URL list; and
a pipeline that raises fails the batch gather. -/
theorem fanout_retry_exhaustion_aborts :
    fetch_release_groups (wPages 100) = .error ()
    ∧ get_release_groups wPages = .error ()
    ∧ fetch_cover_art_urls (wCover "bad") "bad" = .error ()
    ∧ get_cover_art_urls wCover ["good", "bad"] = .error ()
    ∧ isOkE (gatherPipelines [⟨"A", ["B"]⟩] fun _ _ => .error ()) = false :=
  ⟨rfl, rfl, rfl, rfl, rfl⟩

/-- Counterexample for C5: when the catalog reports `count = 0` (the initial page
returned successfully with no matches), the resolver has still issued its one
initial page request, so the total is 1 and not `ceil(0/100) = 0`. -/
theorem release_resolver_request_count_counterexample :
    fetch_release_groups (wPagesZero 0) = .ok ⟨0, []⟩
    ∧ (get_release_groups_requests wPagesZero).length = 1
    ∧ (get_release_groups_requests wPagesZero).length ≠ (0 + 99) / 100 :=
  ⟨rfl, rfl, by decide⟩

/-- C5 (amended): when the initial page request returns a page reporting `count = N`
(it is the request that learns N, so it is always issued), the resolver issues
`max 1 (ceil(N/100))` total page requests — equal to `ceil(N/100)` whenever
`N ≥ 1`; whenever the resolve call completes without an aborting transport
exhaustion, the merged release-group count equals the sum over the issued requests
of each page's contribution; and a page that returned no data (a non-success
status) contributes 0. -/
theorem release_resolver_request_count (pages : Nat → Nat → AttemptOutcome MBPage) :
    (∀ initial : MBPage, fetch_release_groups (pages 0) = .ok initial →
        (get_release_groups_requests pages).length = max 1 ((initial.count + 99) / 100)
        ∧ (1 ≤ initial.count →
            (get_release_groups_requests pages).length = (initial.count + 99) / 100))
    ∧ (∀ gs : List ReleaseGroup, get_release_groups pages = .ok gs →
        gs.length = ((get_release_groups_requests pages).map fun o =>
          pageContribution (pages o)).sum)
    ∧ (∀ (o s : Nat) (b : MBPage), pages o 1 = .response s b → s ≠ 200 →
        pageContribution (pages o) = 0) := by
  refine ⟨?_, ?_, ?_⟩
  · intro initial hi
    have hlen : (get_release_groups_requests pages).length =
        1 + (initial.count - 100 + 99) / 100 := by
      unfold get_release_groups_requests
      rw [hi]
      simp [pyRange, Nat.add_comm]
    constructor
    · rw [hlen]
      omega
    · intro h
      rw [hlen]
      omega
  · intro gs hg
    unfold get_release_groups at hg
    cases h0 : fetch_release_groups (pages 0) with
    | error u =>
      cases u
      simp only [h0] at hg
      exact Except.noConfusion hg
    | ok initial =>
      cases hm : mapME (fun o => fetch_release_groups (pages o))
          (pyRange 100 initial.count 100) with
      | error u =>
        cases u
        simp only [h0, hm] at hg
        exact Except.noConfusion hg
      | ok results =>
        simp only [h0, hm, Except.ok.injEq] at hg
        subst hg
        have hmap : results.map (fun p => p.releaseGroups.length) =
            (pyRange 100 initial.count 100).map fun o => pageContribution (pages o) :=
          mapME_ok_map _ _ _
            (fun o p hp => by simp [pageContribution, hp]) _ results hm
        have hreq : get_release_groups_requests pages =
            0 :: pyRange 100 initial.count 100 := by
          unfold get_release_groups_requests
          rw [h0]
        rw [hreq]
        simp only [List.map_cons, List.sum_cons, List.length_append,
          List.length_flatten, List.map_map, Function.comp_def]
        rw [← hmap]
        have hp0 : pageContribution (pages 0) = initial.releaseGroups.length := by
          simp [pageContribution, h0]
        rw [hp0]
  · intro o s b h1 h2
    simp [pageContribution, fetch_release_groups_non200 (pages o) s b h1 h2,
      MBPage.emptyPage]

/-- Witness for C5: the catalog reports count 250, so 3 page requests are issued
(offsets 0, 100, 200), the merged count 6 is the sum of the three pages'
contributions of 2 each, and a 404 page contributes 0. -/
theorem release_resolver_request_count_witness :
    (get_release_groups_requests wPages250).length = (250 + 99) / 100
    ∧ (wGroups250 ++ wGroups250 ++ wGroups250).length =
        ((get_release_groups_requests wPages250).map fun o =>
          pageContribution (wPages250 o)).sum
    ∧ pageContribution (wPages404 0) = 0 :=
  ⟨((release_resolver_request_count wPages250).1 ⟨250, wGroups250⟩ rfl).2 (by decide),
    (release_resolver_request_count wPages250).2.1
      (wGroups250 ++ wGroups250 ++ wGroups250) rfl,
    (release_resolver_request_count wPages404).2.2 0 404 ⟨5, [⟨"g1", none, []⟩]⟩
      rfl (by decide)⟩

/-- C6: every sequence the materializer/ranking stage produces is sorted with
resolution monotonically non-increasing; the album's winner is the head of the
sequence (none when it is empty); hence the winner has maximal resolution among the
sequence's elements. -/
theorem ranking_sorted_and_winner (outcome : String → Option ImageDetail)
    (order : List String) :
    List.Sorted resDescend (find_image_details outcome order)
    ∧ pickWinner (find_image_details outcome order) =
        (find_image_details outcome order).head?
    ∧ (∀ w, pickWinner (find_image_details outcome order) = some w →
        ∀ d ∈ find_image_details outcome order, d.resolution ≤ w.resolution) := by
  have hs : List.Sorted resDescend (find_image_details outcome order) :=
    List.sorted_insertionSort resDescend _
  refine ⟨hs, pickWinner_eq_head _, ?_⟩
  intro w hw d hd
  cases hfd : find_image_details outcome order with
  | nil =>
    rw [hfd] at hw
    cases hw
  | cons a t =>
    rw [hfd] at hw hd hs
    obtain rfl : a = w := by
      simpa [pickWinner] using hw
    rcases List.mem_cons.mp hd with rfl | hdt
    · exact Nat.le_refl _
    · exact List.rel_of_sorted_cons hs d hdt

/-- Witness for C6: with images of resolutions 100, 300, 100 the ranked sequence is
sorted and the 100-resolution image is bounded by the winner's 300. -/
theorem ranking_sorted_and_winner_witness :
    List.Sorted resDescend (find_image_details wOutcome ["a.jpg", "c.jpg", "b.jpg"])
    ∧ wDetA.resolution ≤ wDetC.resolution :=
  ⟨(ranking_sorted_and_winner wOutcome ["a.jpg", "c.jpg", "b.jpg"]).1,
    (ranking_sorted_and_winner wOutcome ["a.jpg", "c.jpg", "b.jpg"]).2.2 wDetC
      (by decide) wDetA (by decide)⟩

/-- Counterexample for C9: two runs over the same URLs that differ only in the
completion order of the image tasks produce different consumer-visible orderings:
the stable sort keeps the two equal-resolution images in completion order. -/
theorem completion_order_counterexample :
    (["b.jpg", "a.jpg"] : List String).Perm ["a.jpg", "b.jpg"]
    ∧ find_image_details wOutcome ["a.jpg", "b.jpg"]
        ≠ find_image_details wOutcome ["b.jpg", "a.jpg"] :=
  ⟨List.Perm.swap _ _ _, by decide⟩

/-- C9 (amended): runs differing only in completion order produce outputs that are
permutations of each other with identical descending resolution sequences — the
resolution ranking is completion-order independent — but the relative order of
equal-resolution images follows completion order, so the full ordering is not. -/
theorem completion_order_invariants (outcome : String → Option ImageDetail)
    (urls o₁ o₂ : List String) (h₁ : o₁.Perm urls) (h₂ : o₂.Perm urls) :
    (find_image_details outcome o₁).Perm (find_image_details outcome o₂)
    ∧ (find_image_details outcome o₁).map ImageDetail.resolution
      = (find_image_details outcome o₂).map ImageDetail.resolution := by
  have hp : (o₁.filterMap outcome).Perm (o₂.filterMap outcome) :=
    (h₁.trans h₂.symm).filterMap outcome
  have hperm : (find_image_details outcome o₁).Perm (find_image_details outcome o₂) := by
    unfold find_image_details rankByResolution
    exact ((List.perm_insertionSort _ _).trans hp).trans (List.perm_insertionSort _ _).symm
  haveI : IsAntisymm Nat (fun a b : Nat => b ≤ a) :=
    ⟨fun a b hab hba => Nat.le_antisymm hba hab⟩
  have hsorted : ∀ o : List String,
      List.Sorted (fun a b : Nat => b ≤ a)
        ((find_image_details outcome o).map ImageDetail.resolution) := by
    intro o
    exact List.Pairwise.map _ (fun a b hab => hab)
      (List.sorted_insertionSort resDescend (o.filterMap outcome))
  exact ⟨hperm,
    List.eq_of_perm_of_sorted (hperm.map _) (hsorted o₁) (hsorted o₂)⟩

/-- Witness for C9: the two concrete completion orders of the counterexample input
still agree as multisets and on the resolution sequence. -/
theorem completion_order_invariants_witness :
    (find_image_details wOutcome ["b.jpg", "a.jpg"]).Perm
      (find_image_details wOutcome ["a.jpg", "b.jpg"])
    ∧ (find_image_details wOutcome ["b.jpg", "a.jpg"]).map ImageDetail.resolution
      = (find_image_details wOutcome ["a.jpg", "b.jpg"]).map ImageDetail.resolution :=
  completion_order_invariants wOutcome ["a.jpg", "b.jpg"] ["b.jpg", "a.jpg"]
    ["a.jpg", "b.jpg"] (List.Perm.swap _ _ _) (List.Perm.refl _)

/-- Counterexample for C4: a URL not served from cache whose download hits a
transport-level failure is given up immediately — one attempt, no backoff waits, an
empty result — because the blanket `except Exception` inside the function catches
the failure before the retry decorator can see it; the claimed 5 attempts never
happen. -/
theorem image_download_retry_counterexample :
    (fetch_image_details wFsEmpty wNetDrop "img.jpg" none true).attempts = 1
    ∧ (fetch_image_details wFsEmpty wNetDrop "img.jpg" none true).waits = []
    ∧ (fetch_image_details wFsEmpty wNetDrop "img.jpg" none true).result = .ok none
    ∧ (fetch_image_details wFsEmpty wNetDrop "img.jpg" none true).attempts ≠ 5 :=
  ⟨rfl, rfl, rfl, by decide⟩

/-- C4 (amended): for a URL not served from the cache, a transport-level failure
during the image download is caught by the function's own exception handler, so the
URL contributes an empty result after a single attempt with no retry; the retry
decorator only re-runs the function for exceptions escaping the cache-read branch,
where exhaustion takes 5 attempts with waits 1, 2, 4, 8 and reraises. -/
theorem image_download_retry_policy :
    (∀ (fs : FSOracle) (net : Nat → DownloadOutcome) (url : String)
        (sp : Option String) (se : Bool),
        cacheHit fs sp se url = false → net 1 = .transport →
        fetch_image_details fs net url sp se = ⟨.ok none, 1, 1, []⟩)
    ∧ (∀ (fs : FSOracle) (net : Nat → DownloadOutcome) (url p : String),
        fs.pathExists (joinPath p (basename url)) = true →
        fs.openLocal (joinPath p (basename url)) = none →
        fetch_image_details fs net url (some p) true = ⟨.error (), 5, 0, [1, 2, 4, 8]⟩) := by
  constructor
  · intro fs net url sp se hch hnet
    unfold fetch_image_details
    exact img_go_ok fs net url sp se 1 4 none 1
      (img_body_no_cache_transport fs net url sp se 1 hch hnet)
  · intro fs net url p hex hopen
    have hb : ∀ k, fetch_image_details_body fs net url (some p) true k = ⟨.error (), 0⟩ :=
      fun k => img_body_corrupt_cache fs net url p k hex hopen
    unfold fetch_image_details
    rw [img_go_step fs net url (some p) true 1 3 0 (hb 1),
      img_go_step fs net url (some p) true 2 2 0 (hb 2),
      img_go_step fs net url (some p) true 3 1 0 (hb 3),
      img_go_step fs net url (some p) true 4 0 0 (hb 4),
      img_go_last fs net url (some p) true 5 0 (hb 5)]
    simp [waitExponential]

/-- Witness for C4's amended statement: a cache-miss transport failure gives up at
once, while a corrupt cached file is retried to exhaustion. -/
theorem image_download_retry_policy_witness :
    fetch_image_details wFsEmpty wNetDrop "img.jpg" (some "covers") true
      = ⟨.ok none, 1, 1, []⟩
    ∧ fetch_image_details wFsCorrupt wNetDrop "img.jpg" (some "covers") true
      = ⟨.error (), 5, 0, [1, 2, 4, 8]⟩ :=
  ⟨image_download_retry_policy.1 wFsEmpty wNetDrop "img.jpg" (some "covers") true rfl rfl,
    image_download_retry_policy.2 wFsCorrupt wNetDrop "img.jpg" "covers" rfl rfl⟩

/-- C8: when `save_path` is set, `skip_existing` is true and the derived local path
exists, the materializer returns the cached file's measured dimensions and
resolution with that local path, in one attempt with zero network requests — for
every download oracle, so re-running materialization is idempotent on cached
entries. -/
theorem materializer_cache_hit (fs : FSOracle) (net : Nat → DownloadOutcome)
    (url sp : String) (w h : Nat)
    (hex : fs.pathExists (joinPath sp (basename url)) = true)
    (hopen : fs.openLocal (joinPath sp (basename url)) = some (w, h)) :
    fetch_image_details fs net url (some sp) true =
      ⟨.ok (some ⟨url, (w, h), w * h, some (joinPath sp (basename url))⟩), 1, 0, []⟩ := by
  have hb : fetch_image_details_body fs net url (some sp) true 1 =
      ⟨.ok (some ⟨url, (w, h), w * h, some (joinPath sp (basename url))⟩), 0⟩ := by
    simp [fetch_image_details_body, hex, hopen]
  unfold fetch_image_details
  exact img_go_ok fs net url (some sp) true 1 4 _ 0 hb

/-- Witness for C8: a cached 10 x 20 file is measured with no network request even
though the network oracle would fail every attempt. -/
theorem materializer_cache_hit_witness :
    fetch_image_details wFsCached wNetDrop "art/x.jpg" (some "covers") true =
      ⟨.ok (some ⟨"art/x.jpg", (10, 20), 200, some "covers/x.jpg"⟩), 1, 0, []⟩ := by
  have hstr : joinPath "covers" (basename "art/x.jpg") = "covers/x.jpg" := rfl
  have := materializer_cache_hit wFsCached wNetDrop "art/x.jpg" "covers" 10 20 rfl rfl
  simpa [hstr] using this

/-- Helper for C10: with no `save_path` the whole body runs inside the `try` block,
so the run is one attempt and one network request whose value depends only on what
attempt 1 downloads, with a null `local_path`. -/
lemma fetch_image_details_no_save (fs : FSOracle) (net : Nat → DownloadOutcome)
    (url : String) (se : Bool) :
    fetch_image_details fs net url none se =
      ⟨.ok (match net 1 with
            | .transport => none
            | .bytes none => none
            | .bytes (some (w, h)) => some ⟨url, (w, h), w * h, none⟩), 1, 1, []⟩ := by
  have hb : fetch_image_details_body fs net url none se 1 =
      ⟨.ok (match net 1 with
            | .transport => none
            | .bytes none => none
            | .bytes (some (w, h)) => some ⟨url, (w, h), w * h, none⟩), 1⟩ := by
    cases hnk : net 1 with
    | transport => simp [fetch_image_details_body, fetchTryBlock, hnk]
    | bytes d =>
      cases d with
      | none => simp [fetch_image_details_body, fetchTryBlock, hnk]
      | some wh =>
        cases wh with
        | mk w h => simp [fetch_image_details_body, fetchTryBlock, hnk]
  unfold fetch_image_details
  exact img_go_ok fs net url none se 1 4 _ 1 hb

/-- C10: when `save_path` is not set, `skip_existing` has no effect and the local
cache is never consulted (the run is independent of both the flag and the
filesystem), the network fetch always occurs (exactly one request, one attempt),
and any returned detail's `local_path` is null. -/
theorem materializer_no_save_path (fs : FSOracle) (net : Nat → DownloadOutcome)
    (url : String) (se : Bool) :
    fetch_image_details fs net url none se = fetch_image_details fs net url none true
    ∧ (∀ fs2 : FSOracle,
        fetch_image_details fs net url none se = fetch_image_details fs2 net url none se)
    ∧ (fetch_image_details fs net url none se).networkCalls = 1
    ∧ (fetch_image_details fs net url none se).attempts = 1
    ∧ runLocalPath (fetch_image_details fs net url none se) = none := by
  refine ⟨?_, ?_, ?_, ?_, ?_⟩
  · rw [fetch_image_details_no_save fs net url se,
      fetch_image_details_no_save fs net url true]
  · intro fs2
    rw [fetch_image_details_no_save fs net url se,
      fetch_image_details_no_save fs2 net url se]
  · rw [fetch_image_details_no_save fs net url se]
  · rw [fetch_image_details_no_save fs net url se]
  · rw [fetch_image_details_no_save fs net url se]
    rcases net 1 with _ | ⟨_ | ⟨w, h⟩⟩ <;> rfl

lemma get_release_groups_initial_empty (pages : Nat → Nat → AttemptOutcome MBPage)
    (h : fetch_release_groups (pages 0) = .ok MBPage.emptyPage) :
    get_release_groups pages = .ok [] := by
  unfold get_release_groups
  rw [h]
  rfl

lemma typeFilter_nil (rt : Option String) : typeFilter rt [] = [] := by
  cases rt <;> rfl

lemma mapM_isOkE {γ δ : Type} (l : List γ) (f : γ → Except Unit δ)
    (h : ∀ x ∈ l, f x ≠ .error ()) : isOkE (l.mapM f) = true := by
  induction l with
  | nil => rfl
  | cons a t ih =>
    obtain ⟨v, hv⟩ : ∃ v, f a = .ok v := by
      cases hfa : f a with
      | ok v => exact ⟨v, rfl⟩
      | error e =>
        cases e
        exact absurd hfa (h a (List.mem_cons_self a t))
    have ht := ih fun x hx => h x (List.mem_cons_of_mem a hx)
    rw [List.mapM_cons, hv]
    cases hmt : t.mapM f with
    | ok xs => rfl
    | error e =>
      rw [hmt] at ht
      cases e
      exact absurd ht (by simp [isOkE])

lemma process_empty_groups (o : AlbumOracle) (artist album : String)
    (rt st : Option String) (si se : Bool) (od : String)
    (gs : List ReleaseGroup)
    (hg : get_release_groups o.pages = .ok gs)
    (h : typeFilter rt gs = []) :
    process_artist_album o artist album rt st si se od = .ok ⟨none, true⟩ := by
  unfold process_artist_album
  rw [hg]
  simp [h]

lemma process_empty_urls (o : AlbumOracle) (artist album : String)
    (rt st : Option String) (si se : Bool) (od : String)
    (gs : List ReleaseGroup) (crs : List (String × List String))
    (hg : get_release_groups o.pages = .ok gs)
    (hc : get_cover_art_urls o.cover (albumReleaseIds (typeFilter rt gs) st) = .ok crs)
    (hu : crs.flatMap Prod.snd = []) :
    process_artist_album o artist album rt st si se od = .ok ⟨none, true⟩ := by
  unfold process_artist_album
  rw [hg]
  by_cases hrg : (typeFilter rt gs).isEmpty
  · simp [hrg]
  · simp [hrg, hc, hu]

/-- C7: an album pipeline that finds no candidates — an initial catalog page that
returned empty with count 0, zero release groups surviving the release-type filter
in a resolve call that returned, or zero cover-art URLs in a locate call that
returned — terminates early with the logged-error empty result `⟨none, true⟩` and
no exception; and a batch whose pipelines all return without exception gathers
successfully, so such an album does not fail the batch or its siblings. -/
theorem empty_pipeline_soft_exit :
    (∀ (o : AlbumOracle) (artist album : String) (rt st : Option String)
        (si se : Bool) (od : String),
        fetch_release_groups (o.pages 0) = .ok MBPage.emptyPage →
        process_artist_album o artist album rt st si se od = .ok ⟨none, true⟩)
    ∧ (∀ (o : AlbumOracle) (artist album : String) (rt st : Option String)
        (si se : Bool) (od : String) (gs : List ReleaseGroup),
        get_release_groups o.pages = .ok gs →
        typeFilter rt gs = [] →
        process_artist_album o artist album rt st si se od = .ok ⟨none, true⟩)
    ∧ (∀ (o : AlbumOracle) (artist album : String) (rt st : Option String)
        (si se : Bool) (od : String) (gs : List ReleaseGroup)
        (crs : List (String × List String)),
        get_release_groups o.pages = .ok gs →
        get_cover_art_urls o.cover (albumReleaseIds (typeFilter rt gs) st) = .ok crs →
        crs.flatMap Prod.snd = [] →
        process_artist_album o artist album rt st si se od = .ok ⟨none, true⟩)
    ∧ (∀ (cfg : List ArtistAlbums) (run : String → String → Except Unit (Option ImageDetail)),
        (∀ p ∈ pipelinePairs cfg, run p.1 p.2 ≠ .error ()) →
        isOkE (gatherPipelines cfg run) = true) := by
  refine ⟨?_, ?_, ?_, ?_⟩
  · intro o artist album rt st si se od h
    exact process_empty_groups o artist album rt st si se od []
      (get_release_groups_initial_empty _ h) (typeFilter_nil rt)
  · intro o artist album rt st si se od gs hg h
    exact process_empty_groups o artist album rt st si se od gs hg h
  · intro o artist album rt st si se od gs crs hg hc hu
    exact process_empty_urls o artist album rt st si se od gs crs hg hc hu
  · intro cfg run h
    unfold gatherPipelines
    exact mapM_isOkE _ _ h

/-- Witness for C7: the count-0 oracle's pipeline exits softly, and a one-album
batch whose pipeline returns an empty winner gathers successfully. -/
theorem empty_pipeline_soft_exit_witness :
    process_artist_album wAlbumOracle "A" "B" none none false true "out" = .ok ⟨none, true⟩
    ∧ isOkE (gatherPipelines [⟨"A", ["B"]⟩] fun _ _ => .ok none) = true :=
  ⟨empty_pipeline_soft_exit.1 wAlbumOracle "A" "B" none none false true "out" rfl,
    empty_pipeline_soft_exit.2.2.2 [⟨"A", ["B"]⟩] (fun _ _ => .ok none)
      fun _ _ hc => Except.noConfusion hc⟩

/-- C1 evaluated at a failing input: with one artist "A" and two albums "x", "y"
whose pipelines produced distinct winners, `main`'s aggregation zips the flattened
per-(artist, album) results against the per-artist configuration entries, so album
"y" is paired with album "x"'s winner and "y"'s own winner is dropped — unlike the
per-album pairing the claim (and spec) state; and when only "y" produced an image,
the code emits no entry at all for it. -/
theorem batch_summary_zip_misalignment :
    mainSummary wCfgAB wWinners = [⟨"A", "x", wWinX⟩, ⟨"A", "y", wWinX⟩]
    ∧ specAggregate wCfgAB wWinners = [⟨"A", "x", wWinX⟩, ⟨"A", "y", wWinY⟩]
    ∧ mainSummary wCfgAB wWinners ≠ specAggregate wCfgAB wWinners
    ∧ mainSummary wCfgAB wWinnersOnlyY = []
    ∧ specAggregate wCfgAB wWinnersOnlyY = [⟨"A", "y", wWinY⟩] := by
  exact ⟨rfl, rfl, by decide, rfl, rfl⟩

end CoverArtHunter
